import Mathlib

/-!
Shallow embedding of the `solar-flare-app` repository.

The repository contains three near-identical variants of one React
component, `SolarFlareForm`:

* `src/src/components/SolarFlareForm.tsx` — the *classification* variant:
  it validates all thirteen fields and, on success, computes a mock
  prediction `{binary_prediction, final_class, confidence}`.
* `src/unnamed/part_000`, first component — the *validated probability*
  variant: same validation, mock prediction `{probability, riskLevel,
  message}`.
* `src/unnamed/part_000`, second component — the *unvalidated probability*
  variant: no validation at all; every submission computes the same
  probability prediction.

Modelling conventions:

* JavaScript numbers are modelled as rationals `ℚ` (finite values only;
  `parseFloat` returning `NaN` is modelled as `none`).
* A form field string is observed by the code only through
  `value.trim()` emptiness and `parseFloat(value)`, so it is abstracted
  as a pair of those two observations (`ParamString`).  A whitespace-only
  string always parses to `NaN` in JavaScript, recorded by the
  `blank_nan` field.
* `Math.round` rounds half toward positive infinity (`jsRound`);
  `Math.floor`, `Math.min`, `Math.max` are `Int.floor`, `min`, `max`.
* Indexing a JavaScript array at a possibly out-of-range integer yields
  `undefined`, modelled by `listGetInt` returning `none`.
* The component state modelled per variant is the part the submission
  handler reads or writes: `parameters`, `errors` (absent in the
  unvalidated variant) and `result`.  The purely presentational pieces
  (`isLoading`, the simulated two-second delay, the JSX) are not
  modelled: the delay resolves before the prediction is computed and
  contributes nothing to it.
-/

namespace SolarFlare

/-- JavaScript `Math.round`: round half toward positive infinity. -/
def jsRound (q : ℚ) : ℤ := ⌊q + 1/2⌋

/-- JavaScript array indexing `l[i]` at an integer index: `undefined`
(`none`) when the index is negative or at least the length. -/
def listGetInt {α : Type} (l : List α) (i : ℤ) : Option α :=
  if h : 0 ≤ i ∧ i.toNat < l.length then some (l.get ⟨i.toNat, h.2⟩) else none

/-- The thirteen field keys of the `SolarParameters` interface, one
constructor per field, in declaration order. -/
inductive ParamKey where
  | TOTUSJH
  | TOTBSQ
  | TOTPOT
  | TOTUSJZ
  | ABSNJZH
  | SAVNCPP
  | USFLUX
  | AREA_ACR
  | TOTFZ
  | MEANPOT
  | R_VALUE
  | EPSZ
  | SHRGT45
deriving DecidableEq

/-- `Object.keys(parameters)`: the thirteen keys in declaration order. -/
def keyList : List ParamKey :=
  [.TOTUSJH, .TOTBSQ, .TOTPOT, .TOTUSJZ, .ABSNJZH, .SAVNCPP, .USFLUX,
   .AREA_ACR, .TOTFZ, .MEANPOT, .R_VALUE, .EPSZ, .SHRGT45]

/-- The behaviourally relevant part of the `ParameterInfo` interface:
the valid range.  The `description` string is display-only and not
modelled. -/
structure ParameterInfo where
  min : ℚ
  max : ℚ
deriving DecidableEq

/-- The `parameterInfo` record of the two validated variants: the valid
range of each field. -/
def parameterInfo : ParamKey → ParameterInfo
  | .TOTUSJH => ⟨0, 10000⟩
  | .TOTBSQ => ⟨0, 5000⟩
  | .TOTPOT => ⟨0, 100000⟩
  | .TOTUSJZ => ⟨0, 5000⟩
  | .ABSNJZH => ⟨0, 1000⟩
  | .SAVNCPP => ⟨0, 500⟩
  | .USFLUX => ⟨0, 50000⟩
  | .AREA_ACR => ⟨0, 2000⟩
  | .TOTFZ => ⟨0, 1000⟩
  | .MEANPOT => ⟨0, 1000⟩
  | .R_VALUE => ⟨0, 5000⟩
  | .EPSZ => ⟨0, 100⟩
  | .SHRGT45 => ⟨0, 1⟩

/-- A form field string, abstracted to the two observations the code
makes of it: whether `value.trim()` is empty (`isBlank`) and the value
of `parseFloat(value)` (`parsed`; `none` models `NaN`, finite results
are rationals).  In JavaScript a whitespace-only string parses to `NaN`
(`blank_nan`). -/
structure ParamString where
  isBlank : Bool
  parsed : Option ℚ
  blank_nan : isBlank = true → parsed = none

/-- A `SolarParameters` value: the thirteen field strings. -/
structure SolarParameters where
  TOTUSJH : ParamString
  TOTBSQ : ParamString
  TOTPOT : ParamString
  TOTUSJZ : ParamString
  ABSNJZH : ParamString
  SAVNCPP : ParamString
  USFLUX : ParamString
  AREA_ACR : ParamString
  TOTFZ : ParamString
  MEANPOT : ParamString
  R_VALUE : ParamString
  EPSZ : ParamString
  SHRGT45 : ParamString

/-- Field lookup `parameters[key]`. -/
def SolarParameters.get (p : SolarParameters) : ParamKey → ParamString
  | .TOTUSJH => p.TOTUSJH
  | .TOTBSQ => p.TOTBSQ
  | .TOTPOT => p.TOTPOT
  | .TOTUSJZ => p.TOTUSJZ
  | .ABSNJZH => p.ABSNJZH
  | .SAVNCPP => p.SAVNCPP
  | .USFLUX => p.USFLUX
  | .AREA_ACR => p.AREA_ACR
  | .TOTFZ => p.TOTFZ
  | .MEANPOT => p.MEANPOT
  | .R_VALUE => p.R_VALUE
  | .EPSZ => p.EPSZ
  | .SHRGT45 => p.SHRGT45

/-- The two error values `validateParameter` can produce; `message`
recovers the exact strings the source returns. -/
inductive ValidationError where
  | invalidNumber
  | outOfRange (lo hi : ℚ)
deriving DecidableEq

/-- The error strings of the source: `'Invalid number'` and
`` `Value must be between ${info.min} and ${info.max}` ``. -/
def ValidationError.message : ValidationError → String
  | .invalidNumber => "Invalid number"
  | .outOfRange lo hi =>
      "Value must be between " ++ toString lo ++ " and " ++ toString hi

/-- `validateParameter` (identical in both validated variants): `null`
for a blank string, `'Invalid number'` when `parseFloat` gives `NaN`,
the range error when the value is strictly below `min` or strictly above
`max`, `null` otherwise. -/
def validateParameter (key : ParamKey) (value : ParamString) :
    Option ValidationError :=
  if value.isBlank then none
  else
    match value.parsed with
    | none => some .invalidNumber
    | some numValue =>
        let info := parameterInfo key
        if numValue < info.min ∨ numValue > info.max then
          some (.outOfRange info.min info.max)
        else none

/-- `parseFloat(v) || 0`: `NaN` (and hence every blank string) becomes
`0`; a parsed `0` stays `0`. -/
def parseOrZero (v : ParamString) : ℚ := v.parsed.getD 0

/-- `Object.values(parameters).map((v) => parseFloat(v) || 0)` — the
same line in all three variants. -/
def values (p : SolarParameters) : List ℚ :=
  keyList.map fun k => parseOrZero (p.get k)

/-- The sum `values.reduce((a, b) => a + b, 0)`. -/
def sumValues (p : SolarParameters) : ℚ := (values p).sum

/-- `avgValue = values.reduce((a, b) => a + b, 0) / values.length`. -/
def avgValue (p : SolarParameters) : ℚ :=
  sumValues p / ((values p).length : ℚ)

/-- The `newErrors` object built by the validation loop of
`handleSubmit`: the per-field validation outcome (`none` models a key
absent from the object). -/
def newErrors (p : SolarParameters) (k : ParamKey) : Option ValidationError :=
  validateParameter k (p.get k)

/-- The `hasErrors` flag of the validation loop: some field fails
`validateParameter`. -/
def hasErrors (p : SolarParameters) : Bool :=
  keyList.any fun k => (validateParameter k (p.get k)).isSome

namespace Classification

/-- The `PredictionResult` interface of the classification variant.
`final_class` is `Option String` because `mockClasses[classIndex]` is
`undefined` when the index is out of range. -/
structure PredictionResult where
  binary_prediction : String
  final_class : Option String
  confidence : ℚ
deriving DecidableEq

/-- `const mockClasses = ['B', 'C', 'M', 'X', 'B/C']`. -/
def mockClasses : List String := ["B", "C", "M", "X", "B/C"]

/-- `const classIndex = Math.min(Math.floor(avgValue / 2500), 4)`. -/
def classIndex (avgValue : ℚ) : ℤ := min ⌊avgValue / 2500⌋ 4

/-- The mock prediction of the classification variant
(`SolarFlareForm.tsx`, `handleSubmit` success path). -/
def predict (avgValue : ℚ) : PredictionResult :=
  let finalClass := listGetInt mockClasses (classIndex avgValue)
  let isMajorFlare := finalClass = some "M" ∨ finalClass = some "X"
  let confidence := min (max (2/5 + avgValue / 20000) (2/5)) (49/50)
  { binary_prediction := if isMajorFlare then "Major Flare" else "No Major Flare"
    final_class := finalClass
    confidence := confidence }

/-- The component state `handleSubmit` reads and writes. -/
structure State where
  parameters : SolarParameters
  errors : ParamKey → Option ValidationError
  result : Option PredictionResult

/-- `handleSubmit` of the classification variant: validate every field;
on any error record `newErrors` and return, otherwise store the mock
prediction of the average. -/
def handleSubmit (s : State) : State :=
  if hasErrors s.parameters then { s with errors := newErrors s.parameters }
  else { s with result := some (predict (avgValue s.parameters)) }

end Classification

/-- The risk levels of the probability variants. -/
inductive RiskLevel where
  | low
  | medium
  | high
deriving DecidableEq

/-- The `PredictionResult` interface declared identically in both
probability variants. -/
structure ProbPredictionResult where
  probability : ℚ
  riskLevel : RiskLevel
  message : String
deriving DecidableEq

/-- The message shown for each risk level (the branch bodies of the
probability variants). -/
def riskMessage : RiskLevel → String
  | .low => "Low probability of solar flare activity. Conditions appear stable."
  | .medium => "Moderate probability of solar flare activity. Continue monitoring."
  | .high => "High probability of solar flare activity. Enhanced monitoring recommended."

namespace ProbValidated

/-- The mock prediction of the validated probability variant
(`part_000` first component, `handleSubmit` lines 167-184):
`probability = Math.round(Math.min(Math.max((avgValue / 10000) * 100, 5), 95) * 100) / 100`,
then the risk level and message by thresholds 30 and 60. -/
def predict (avgValue : ℚ) : ProbPredictionResult :=
  let probability : ℚ :=
    (jsRound (min (max ((avgValue / 10000) * 100) 5) 95 * 100) : ℚ) / 100
  if probability < 30 then
    { probability := probability, riskLevel := .low
      message := "Low probability of solar flare activity. Conditions appear stable." }
  else if probability < 60 then
    { probability := probability, riskLevel := .medium
      message := "Moderate probability of solar flare activity. Continue monitoring." }
  else
    { probability := probability, riskLevel := .high
      message := "High probability of solar flare activity. Enhanced monitoring recommended." }

/-- The component state `handleSubmit` reads and writes. -/
structure State where
  parameters : SolarParameters
  errors : ParamKey → Option ValidationError
  result : Option ProbPredictionResult

/-- `handleSubmit` of the validated probability variant: validate every
field; on any error record `newErrors` and return, otherwise store the
probability prediction of the average. -/
def handleSubmit (s : State) : State :=
  if hasErrors s.parameters then { s with errors := newErrors s.parameters }
  else { s with result := some (predict (avgValue s.parameters)) }

end ProbValidated

namespace ProbUnvalidated

/-- The mock prediction of the unvalidated probability variant
(`part_000` second component, `handleSubmit` lines 508-530); the source
text of the computation is identical to the validated variant's. -/
def predict (avgValue : ℚ) : ProbPredictionResult :=
  let probability : ℚ :=
    (jsRound (min (max ((avgValue / 10000) * 100) 5) 95 * 100) : ℚ) / 100
  if probability < 30 then
    { probability := probability, riskLevel := .low
      message := "Low probability of solar flare activity. Conditions appear stable." }
  else if probability < 60 then
    { probability := probability, riskLevel := .medium
      message := "Moderate probability of solar flare activity. Continue monitoring." }
  else
    { probability := probability, riskLevel := .high
      message := "High probability of solar flare activity. Enhanced monitoring recommended." }

/-- The component state of the unvalidated variant: no `errors` state
exists there. -/
structure State where
  parameters : SolarParameters
  result : Option ProbPredictionResult

/-- `handleSubmit` of the unvalidated probability variant: no
validation; every submission stores the probability prediction of the
average. -/
def handleSubmit (s : State) : State :=
  { s with result := some (predict (avgValue s.parameters)) }

end ProbUnvalidated

/-- A blank field string: `trim()` empty, `parseFloat` gives `NaN`. -/
def blankString : ParamString := ⟨true, none, fun _ => rfl⟩

/-- A non-blank field string that parses to the rational `q`. -/
def numString (q : ℚ) : ParamString := ⟨false, some q, fun h => Bool.noConfusion h⟩

/-- A non-blank field string that does not parse to a number. -/
def nanString : ParamString := ⟨false, none, fun _ => rfl⟩

/-- The all-empty form (the component's initial `parameters` state). -/
def emptyParameters : SolarParameters :=
  ⟨blankString, blankString, blankString, blankString, blankString,
   blankString, blankString, blankString, blankString, blankString,
   blankString, blankString, blankString⟩

/-- A form with every field entered as `0` (all in range). -/
def zeroParameters : SolarParameters :=
  ⟨numString 0, numString 0, numString 0, numString 0, numString 0,
   numString 0, numString 0, numString 0, numString 0, numString 0,
   numString 0, numString 0, numString 0⟩

/-- A form equal to `zeroParameters` except `TOTUSJH = "13"`. -/
def witnessParamsA : SolarParameters :=
  ⟨numString 13, numString 0, numString 0, numString 0, numString 0,
   numString 0, numString 0, numString 0, numString 0, numString 0,
   numString 0, numString 0, numString 0⟩

/-- A form equal to `zeroParameters` except `TOTBSQ = "13"`: same sum of
parsed values as `witnessParamsA`. -/
def witnessParamsB : SolarParameters :=
  ⟨numString 0, numString 13, numString 0, numString 0, numString 0,
   numString 0, numString 0, numString 0, numString 0, numString 0,
   numString 0, numString 0, numString 0⟩

/-- A form whose `TOTUSJH` entry `999999` is far above its maximum
`10000`, so range validation rejects it. -/
def badParameters : SolarParameters :=
  ⟨numString 999999, numString 0, numString 0, numString 0, numString 0,
   numString 0, numString 0, numString 0, numString 0, numString 0,
   numString 0, numString 0, numString 0⟩

end SolarFlare

namespace SolarFlare

/-! ### Helper lemmas -/

lemma values_length (p : SolarParameters) : (values p).length = 13 := rfl

lemma avgValue_eq_sum_div (p : SolarParameters) :
    avgValue p = sumValues p / 13 := by
  unfold avgValue
  rw [values_length]
  norm_num

lemma parameterInfo_min_eq_zero (k : ParamKey) : (parameterInfo k).min = 0 := by
  cases k <;> rfl

lemma parseOrZero_nonneg_of_valid (k : ParamKey) (v : ParamString)
    (h : validateParameter k v = none) : 0 ≤ parseOrZero v := by
  obtain ⟨b, vp, hbn⟩ := v
  cases b with
  | true =>
    simp only [parseOrZero, hbn rfl, Option.getD_none]
    exact le_refl 0
  | false =>
    cases vp with
    | none => simp [validateParameter] at h
    | some q =>
      simp only [validateParameter, Bool.false_eq_true, if_false, not_or] at h
      simp only [parseOrZero, Option.getD_some]
      by_cases hc : q < (parameterInfo k).min ∨ q > (parameterInfo k).max
      · simp only [if_pos hc] at h
        exact absurd h (by simp)
      · push_neg at hc
        have h0 := hc.1
        rwa [parameterInfo_min_eq_zero] at h0

lemma validate_all_of_valid {p : SolarParameters} (h : hasErrors p = false) :
    ∀ k, validateParameter k (p.get k) = none := by
  intro k
  have hk : k ∈ keyList := by cases k <;> simp [keyList]
  have h2 : ∀ x ∈ keyList, ¬((validateParameter x (p.get x)).isSome = true) := by
    simpa [hasErrors, List.any_eq_true] using h
  exact Option.not_isSome_iff_eq_none.mp (h2 k hk)

lemma sumValues_nonneg {p : SolarParameters} (h : hasErrors p = false) :
    0 ≤ sumValues p := by
  apply List.sum_nonneg
  intro x hx
  simp only [values, List.mem_map] at hx
  obtain ⟨k, _, rfl⟩ := hx
  exact parseOrZero_nonneg_of_valid k _ (validate_all_of_valid h k)

lemma avgValue_nonneg {p : SolarParameters} (h : hasErrors p = false) :
    0 ≤ avgValue p := by
  rw [avgValue_eq_sum_div]
  exact div_nonneg (sumValues_nonneg h) (by norm_num)

lemma classIndex_nonneg {a : ℚ} (h : 0 ≤ a) :
    0 ≤ Classification.classIndex a :=
  le_min (Int.floor_nonneg.mpr (div_nonneg h (by norm_num))) (by norm_num)

lemma classIndex_le_four (a : ℚ) : Classification.classIndex a ≤ 4 :=
  min_le_right _ _

lemma listGetInt_mockClasses_eq (i : ℤ) (h0 : 0 ≤ i) (h4 : i ≤ 4) :
    listGetInt Classification.mockClasses i =
      some (Classification.mockClasses.getD i.toNat "") := by
  interval_cases i <;> rfl

lemma mockClasses_getInt_cases (i : ℤ) (h0 : 0 ≤ i) (h4 : i ≤ 4) :
    listGetInt Classification.mockClasses i = some "B" ∨
    listGetInt Classification.mockClasses i = some "C" ∨
    listGetInt Classification.mockClasses i = some "M" ∨
    listGetInt Classification.mockClasses i = some "X" ∨
    listGetInt Classification.mockClasses i = some "B/C" := by
  interval_cases i
  · exact Or.inl rfl
  · exact Or.inr (Or.inl rfl)
  · exact Or.inr (Or.inr (Or.inl rfl))
  · exact Or.inr (Or.inr (Or.inr (Or.inl rfl)))
  · exact Or.inr (Or.inr (Or.inr (Or.inr rfl)))

lemma predict_final_class (a : ℚ) :
    (Classification.predict a).final_class =
      listGetInt Classification.mockClasses (Classification.classIndex a) := rfl

lemma predict_binary_prediction (a : ℚ) :
    (Classification.predict a).binary_prediction =
      if (Classification.predict a).final_class = some "M" ∨
         (Classification.predict a).final_class = some "X"
      then "Major Flare" else "No Major Flare" := rfl

lemma predict_confidence (a : ℚ) :
    (Classification.predict a).confidence =
      min (max (2/5 + a / 20000) (2/5)) (49/50) := rfl

lemma probValidated_probability (a : ℚ) :
    (ProbValidated.predict a).probability =
      (jsRound (min (max ((a / 10000) * 100) 5) 95 * 100) : ℚ) / 100 := by
  simp only [ProbValidated.predict]
  split_ifs <;> rfl

lemma probVariants_predict_eq (a : ℚ) :
    ProbValidated.predict a = ProbUnvalidated.predict a := rfl

lemma jsRound_prob_bounds (a : ℚ) :
    5 ≤ ((jsRound (min (max ((a / 10000) * 100) 5) 95 * 100) : ℚ) / 100) ∧
    ((jsRound (min (max ((a / 10000) * 100) 5) 95 * 100) : ℚ) / 100) ≤ 95 := by
  set c : ℚ := min (max ((a / 10000) * 100) 5) 95 with hc
  have h5 : 5 ≤ c := le_min (le_max_right _ _) (by norm_num)
  have h95 : c ≤ 95 := min_le_right _ _
  have hlo : (500 : ℤ) ≤ jsRound (c * 100) := by
    rw [jsRound]
    apply Int.le_floor.mpr
    push_cast
    linarith
  have hhi : jsRound (c * 100) ≤ 9500 := by
    rw [jsRound]
    have h1 : (c * 100 + 1/2 : ℚ) < ((9501 : ℤ) : ℚ) := by push_cast; linarith
    have h2 := Int.floor_lt.mpr h1
    omega
  constructor
  · rw [le_div_iff₀ (by norm_num : (0:ℚ) < 100)]
    have : ((500 : ℤ) : ℚ) ≤ (jsRound (c * 100) : ℚ) := Int.cast_le.mpr hlo
    push_cast at this ⊢
    linarith
  · rw [div_le_iff₀ (by norm_num : (0:ℚ) < 100)]
    have : ((jsRound (c * 100) : ℤ) : ℚ) ≤ ((9500 : ℤ) : ℚ) := Int.cast_le.mpr hhi
    push_cast at this ⊢
    linarith

end SolarFlare

namespace SolarFlare

/-! ### Claim theorems -/

/-- C1: for any two assignments of the thirteen parameter strings that
pass validation and whose parsed values have the same sum, every variant
produces the identical prediction result on submission, regardless of
the rest of the component state. -/
theorem c1_prediction_depends_only_on_sum (p q : SolarParameters)
    (hp : hasErrors p = false) (hq : hasErrors q = false)
    (hsum : sumValues p = sumValues q) :
    (∀ (e e' : ParamKey → Option ValidationError)
       (r r' : Option Classification.PredictionResult),
        (Classification.handleSubmit ⟨p, e, r⟩).result =
          (Classification.handleSubmit ⟨q, e', r'⟩).result) ∧
    (∀ (e e' : ParamKey → Option ValidationError)
       (r r' : Option ProbPredictionResult),
        (ProbValidated.handleSubmit ⟨p, e, r⟩).result =
          (ProbValidated.handleSubmit ⟨q, e', r'⟩).result) ∧
    (∀ (r r' : Option ProbPredictionResult),
        (ProbUnvalidated.handleSubmit ⟨p, r⟩).result =
          (ProbUnvalidated.handleSubmit ⟨q, r'⟩).result) := by
  have havg : avgValue p = avgValue q := by
    rw [avgValue_eq_sum_div, avgValue_eq_sum_div, hsum]
  refine ⟨?_, ?_, ?_⟩
  · intro e e' r r'
    simp [Classification.handleSubmit, hp, hq, havg]
  · intro e e' r r'
    simp [ProbValidated.handleSubmit, hp, hq, havg]
  · intro r r'
    simp [ProbUnvalidated.handleSubmit, havg]

/-- Witness for C1: two concrete valid assignments with equal sums
(`13` entered in `TOTUSJH` versus in `TOTBSQ`). -/
theorem c1_witness :
    (Classification.handleSubmit ⟨witnessParamsA, fun _ => none, none⟩).result =
      (Classification.handleSubmit ⟨witnessParamsB, fun _ => none, none⟩).result :=
  (c1_prediction_depends_only_on_sum witnessParamsA witnessParamsB
      (by decide) (by decide)
      (by simp [sumValues, values, keyList, parseOrZero, SolarParameters.get,
                witnessParamsA, witnessParamsB, numString])).1
    (fun _ => none) (fun _ => none) none none

/-- C2: after a valid submission in the classification variant,
`final_class` is the element of `['B', 'C', 'M', 'X', 'B/C']` at index
`min(floor(average / 2500), 4)` with `average` the sum of the thirteen
parsed values divided by 13, and `binary_prediction` is `'Major Flare'`
exactly when `final_class` is `'M'` or `'X'`, else `'No Major Flare'`. -/
theorem c2_classification_formula (s : Classification.State)
    (h : hasErrors s.parameters = false) :
    ∃ r, (Classification.handleSubmit s).result = some r ∧
      r.final_class = some ((["B", "C", "M", "X", "B/C"].getD
        (min ⌊(sumValues s.parameters / 13) / 2500⌋ 4).toNat "")) ∧
      r.binary_prediction =
        (if r.final_class = some "M" ∨ r.final_class = some "X"
         then "Major Flare" else "No Major Flare") := by
  refine ⟨Classification.predict (avgValue s.parameters), ?_, ?_, ?_⟩
  · simp [Classification.handleSubmit, h]
  · have h0 := classIndex_nonneg (avgValue_nonneg h)
    have h4 := classIndex_le_four (avgValue s.parameters)
    rw [predict_final_class, listGetInt_mockClasses_eq _ h0 h4]
    have hidx : Classification.classIndex (avgValue s.parameters) =
        min ⌊(sumValues s.parameters / 13) / 2500⌋ 4 := by
      unfold Classification.classIndex
      rw [avgValue_eq_sum_div]
    rw [hidx]
    rfl
  · rw [predict_binary_prediction]

/-- Witness for C2 at the all-zero form. -/
theorem c2_witness :
    ∃ r, (Classification.handleSubmit
        ⟨zeroParameters, fun _ => none, none⟩).result = some r ∧
      r.final_class = some ((["B", "C", "M", "X", "B/C"].getD
        (min ⌊(sumValues zeroParameters / 13) / 2500⌋ 4).toNat "")) ∧
      r.binary_prediction =
        (if r.final_class = some "M" ∨ r.final_class = some "X"
         then "Major Flare" else "No Major Flare") :=
  c2_classification_formula ⟨zeroParameters, fun _ => none, none⟩ (by decide)

end SolarFlare
namespace SolarFlare

/-- The risk-level branches of the probability prediction, as an
explicit case analysis on the computed probability. -/
lemma probPredict_spec (a : ℚ) :
    ((ProbValidated.predict a).riskLevel = .low ↔
        (ProbValidated.predict a).probability < 30) ∧
    ((ProbValidated.predict a).riskLevel = .medium ↔
        (30 ≤ (ProbValidated.predict a).probability ∧
         (ProbValidated.predict a).probability < 60)) ∧
    ((ProbValidated.predict a).riskLevel = .high ↔
        60 ≤ (ProbValidated.predict a).probability) ∧
    ((ProbValidated.predict a).message =
        riskMessage (ProbValidated.predict a).riskLevel) := by
  simp only [ProbValidated.predict]
  split_ifs with h1 h2
  · exact ⟨iff_of_true rfl h1,
      iff_of_false (by simp) (fun h => absurd h1 (not_lt.mpr h.1)),
      iff_of_false (by simp) (fun h => absurd h1 (not_lt.mpr (by linarith))),
      rfl⟩
  · exact ⟨iff_of_false (by simp) h1,
      iff_of_true rfl ⟨not_lt.mp h1, h2⟩,
      iff_of_false (by simp) (not_le.mpr h2),
      rfl⟩
  · exact ⟨iff_of_false (by simp) h1,
      iff_of_false (by simp) (fun h => absurd h.2 h2),
      iff_of_true rfl (not_lt.mp h2),
      rfl⟩

/-- `validateParameter` on a non-blank string that parses to `q`
reduces to the range check. -/
lemma validateParameter_some_parsed (key : ParamKey) (v : ParamString)
    (q : ℚ) (hb : v.isBlank = false) (hp : v.parsed = some q) :
    validateParameter key v =
      if q < (parameterInfo key).min ∨ q > (parameterInfo key).max then
        some (.outOfRange (parameterInfo key).min (parameterInfo key).max)
      else none := by
  simp [validateParameter, hb, hp]

/-- C3: in both probability variants the probability is
`(average / 10000) * 100` clamped to `[5, 95]` and rounded to two
decimal places, the risk level is `low` exactly below 30, `medium`
exactly in `[30, 60)`, `high` otherwise, and the message is determined
by the risk level alone. -/
theorem c3_probability_formula (p : SolarParameters) :
    ((ProbValidated.predict (avgValue p)).probability =
        (jsRound (min (max ((avgValue p / 10000) * 100) 5) 95 * 100) : ℚ) / 100) ∧
    ((ProbValidated.predict (avgValue p)).riskLevel = .low ↔
        (ProbValidated.predict (avgValue p)).probability < 30) ∧
    ((ProbValidated.predict (avgValue p)).riskLevel = .medium ↔
        (30 ≤ (ProbValidated.predict (avgValue p)).probability ∧
         (ProbValidated.predict (avgValue p)).probability < 60)) ∧
    ((ProbValidated.predict (avgValue p)).riskLevel = .high ↔
        60 ≤ (ProbValidated.predict (avgValue p)).probability) ∧
    ((ProbValidated.predict (avgValue p)).message =
        riskMessage (ProbValidated.predict (avgValue p)).riskLevel) ∧
    ProbUnvalidated.predict (avgValue p) = ProbValidated.predict (avgValue p) := by
  obtain ⟨hl, hm, hh, hmsg⟩ := probPredict_spec (avgValue p)
  exact ⟨probValidated_probability (avgValue p), hl, hm, hh, hmsg,
    (probVariants_predict_eq (avgValue p)).symm⟩

/-- C4: `validateParameter` returns `null` on a blank string,
`'Invalid number'` on a non-blank string that does not parse, the range
error exactly when the parsed number is strictly outside `[min, max]`,
and `null` otherwise. -/
theorem c4_validateParameter_cases (key : ParamKey) (v : ParamString) :
    (v.isBlank = true → validateParameter key v = none) ∧
    (v.isBlank = false → v.parsed = none →
      validateParameter key v = some .invalidNumber ∧
      ValidationError.invalidNumber.message = "Invalid number") ∧
    (∀ q : ℚ, v.isBlank = false → v.parsed = some q →
      (validateParameter key v =
          some (.outOfRange (parameterInfo key).min (parameterInfo key).max) ↔
        (q < (parameterInfo key).min ∨ q > (parameterInfo key).max)) ∧
      (validateParameter key v = none ↔
        ((parameterInfo key).min ≤ q ∧ q ≤ (parameterInfo key).max))) := by
  refine ⟨?_, ?_, ?_⟩
  · intro hb
    simp [validateParameter, hb]
  · intro hb hp
    exact ⟨by simp [validateParameter, hb, hp], rfl⟩
  · intro q hb hp
    rw [validateParameter_some_parsed key v q hb hp]
    by_cases hc : q < (parameterInfo key).min ∨ q > (parameterInfo key).max
    · rw [if_pos hc]
      refine ⟨⟨fun _ => hc, fun _ => rfl⟩, ?_, ?_⟩
      · intro h
        exact absurd h (by simp)
      · rintro ⟨hl, hr⟩
        rcases hc with hc | hc
        · exact absurd hl (not_le.mpr hc)
        · exact absurd hr (not_le.mpr hc)
    · rw [if_neg hc]
      push_neg at hc
      refine ⟨⟨fun h => absurd h (by simp), fun h => ?_⟩,
        ⟨fun _ => hc, fun _ => rfl⟩⟩
      rcases h with h | h
      · exact absurd h (not_lt.mpr hc.1)
      · exact absurd h (not_lt.mpr hc.2)

/-- Witness for C4: a concrete in-range entry passes, a concrete
out-of-range entry gets the range error. -/
theorem c4_witness :
    validateParameter .TOTUSJH (numString 999999) =
      some (.outOfRange (parameterInfo .TOTUSJH).min (parameterInfo .TOTUSJH).max) :=
  ((c4_validateParameter_cases .TOTUSJH (numString 999999)).2.2 999999 rfl rfl).1.mpr
    (Or.inr (by norm_num [parameterInfo]))

end SolarFlare

namespace SolarFlare

/-- C5 counterexample: in the unvalidated probability variant
(`part_000`, second component) a submission computes and stores a
prediction although `validateParameter` rejects the `TOTUSJH` entry
`999999`, so it is not the case that every submission is range-validated
before the prediction is computed. -/
theorem c5_counterexample :
    (validateParameter .TOTUSJH (badParameters.get .TOTUSJH)).isSome = true ∧
    (ProbUnvalidated.handleSubmit ⟨badParameters, none⟩).result ≠ none := by
  constructor
  · decide
  · simp [ProbUnvalidated.handleSubmit]

/-- C5 amended: in the classification and validated probability
variants, a submission with any rejected field records the per-field
errors and returns without computing a prediction, leaving the result
and the parameters unchanged; the unvalidated probability variant
computes a prediction on every submission without validating. -/
theorem c5_validation_gates_prediction
    (s : Classification.State) (t : ProbValidated.State)
    (u : ProbUnvalidated.State)
    (hs : hasErrors s.parameters = true) (ht : hasErrors t.parameters = true) :
    ((Classification.handleSubmit s).errors = newErrors s.parameters ∧
     (Classification.handleSubmit s).result = s.result ∧
     (Classification.handleSubmit s).parameters = s.parameters) ∧
    ((ProbValidated.handleSubmit t).errors = newErrors t.parameters ∧
     (ProbValidated.handleSubmit t).result = t.result ∧
     (ProbValidated.handleSubmit t).parameters = t.parameters) ∧
    (ProbUnvalidated.handleSubmit u).result =
      some (ProbUnvalidated.predict (avgValue u.parameters)) := by
  refine ⟨⟨?_, ?_, ?_⟩, ⟨?_, ?_, ?_⟩, rfl⟩ <;>
    simp [Classification.handleSubmit, ProbValidated.handleSubmit, hs, ht]

/-- Witness for C5 (amended) at a concrete rejected form. -/
theorem c5_witness :
    (Classification.handleSubmit ⟨badParameters, fun _ => none, none⟩).result =
      none :=
  (c5_validation_gates_prediction
      ⟨badParameters, fun _ => none, none⟩
      ⟨badParameters, fun _ => none, none⟩
      ⟨badParameters, none⟩ (by decide) (by decide)).1.2.1

/-- C6: the submission computation is deterministic — in each variant
the stored prediction result is a function of the thirteen parameter
strings alone; no other component state (previous errors or result)
influences it, and the embedding is pure, so two runs on the same
parameters agree. -/
theorem c6_prediction_deterministic :
    (∀ s t : Classification.State, s.parameters = t.parameters →
      hasErrors s.parameters = false →
      (Classification.handleSubmit s).result =
        (Classification.handleSubmit t).result) ∧
    (∀ s t : ProbValidated.State, s.parameters = t.parameters →
      hasErrors s.parameters = false →
      (ProbValidated.handleSubmit s).result =
        (ProbValidated.handleSubmit t).result) ∧
    (∀ s t : ProbUnvalidated.State, s.parameters = t.parameters →
      (ProbUnvalidated.handleSubmit s).result =
        (ProbUnvalidated.handleSubmit t).result) := by
  refine ⟨?_, ?_, ?_⟩
  · intro s t hpar h
    have h2 : hasErrors t.parameters = false := hpar ▸ h
    simp [Classification.handleSubmit, h, h2, hpar]
  · intro s t hpar h
    have h2 : hasErrors t.parameters = false := hpar ▸ h
    simp [ProbValidated.handleSubmit, h, h2, hpar]
  · intro s t hpar
    simp [ProbUnvalidated.handleSubmit, hpar]

/-- Witness for C6: states sharing parameters but with different prior
errors and results produce the same prediction. -/
theorem c6_witness :
    (Classification.handleSubmit ⟨zeroParameters, fun _ => none, none⟩).result =
      (Classification.handleSubmit
        ⟨zeroParameters, fun k => validateParameter k (zeroParameters.get k),
         some (Classification.predict 77)⟩).result ∧
    (ProbUnvalidated.handleSubmit ⟨zeroParameters, none⟩).result =
      (ProbUnvalidated.handleSubmit
        ⟨zeroParameters, some (ProbUnvalidated.predict 77)⟩).result :=
  ⟨c6_prediction_deterministic.1 _ _ rfl (by decide),
   c6_prediction_deterministic.2.2 _ _ rfl⟩

/-- C7: for every assignment of the thirteen parameter strings the
validated and the unvalidated probability variants compute the same
`(probability, riskLevel, message)` triple. -/
theorem c7_prob_variants_agree (p : SolarParameters) :
    (ProbValidated.predict (avgValue p)).probability =
      (ProbUnvalidated.predict (avgValue p)).probability ∧
    (ProbValidated.predict (avgValue p)).riskLevel =
      (ProbUnvalidated.predict (avgValue p)).riskLevel ∧
    (ProbValidated.predict (avgValue p)).message =
      (ProbUnvalidated.predict (avgValue p)).message ∧
    ProbValidated.predict (avgValue p) = ProbUnvalidated.predict (avgValue p) :=
  ⟨rfl, rfl, rfl, rfl⟩

/-- C8: when every field passes validation the class index lies in
`[0, 4]`, indexing the five-element class array is in bounds, and
`final_class` is one of the five classes. -/
theorem c8_class_index_in_bounds (p : SolarParameters)
    (h : hasErrors p = false) :
    0 ≤ Classification.classIndex (avgValue p) ∧
    Classification.classIndex (avgValue p) ≤ 4 ∧
    (listGetInt Classification.mockClasses
      (Classification.classIndex (avgValue p))).isSome = true ∧
    ((Classification.predict (avgValue p)).final_class = some "B" ∨
     (Classification.predict (avgValue p)).final_class = some "C" ∨
     (Classification.predict (avgValue p)).final_class = some "M" ∨
     (Classification.predict (avgValue p)).final_class = some "X" ∨
     (Classification.predict (avgValue p)).final_class = some "B/C") := by
  have h0 := classIndex_nonneg (avgValue_nonneg h)
  have h4 := classIndex_le_four (avgValue p)
  refine ⟨h0, h4, ?_, ?_⟩
  · rw [listGetInt_mockClasses_eq _ h0 h4]
    rfl
  · rw [predict_final_class]
    exact mockClasses_getInt_cases _ h0 h4

/-- Witness for C8 at the all-zero form. -/
theorem c8_witness :
    0 ≤ Classification.classIndex (avgValue zeroParameters) ∧
    Classification.classIndex (avgValue zeroParameters) ≤ 4 ∧
    (listGetInt Classification.mockClasses
      (Classification.classIndex (avgValue zeroParameters))).isSome = true ∧
    ((Classification.predict (avgValue zeroParameters)).final_class = some "B" ∨
     (Classification.predict (avgValue zeroParameters)).final_class = some "C" ∨
     (Classification.predict (avgValue zeroParameters)).final_class = some "M" ∨
     (Classification.predict (avgValue zeroParameters)).final_class = some "X" ∨
     (Classification.predict (avgValue zeroParameters)).final_class = some "B/C") :=
  c8_class_index_in_bounds zeroParameters (by decide)

/-- C9: for every assignment of the thirteen parameter strings,
validated or not, the probability lies in `[5, 95]` and the
classification confidence lies in `[0.4, 0.98]` (as rationals,
`[2/5, 49/50]`). -/
theorem c9_outputs_clamped (p : SolarParameters) :
    (5 ≤ (ProbValidated.predict (avgValue p)).probability ∧
      (ProbValidated.predict (avgValue p)).probability ≤ 95) ∧
    (5 ≤ (ProbUnvalidated.predict (avgValue p)).probability ∧
      (ProbUnvalidated.predict (avgValue p)).probability ≤ 95) ∧
    (2/5 ≤ (Classification.predict (avgValue p)).confidence ∧
      (Classification.predict (avgValue p)).confidence ≤ 49/50) := by
  have hb := jsRound_prob_bounds (avgValue p)
  have hp := probValidated_probability (avgValue p)
  refine ⟨⟨?_, ?_⟩, ⟨?_, ?_⟩, ?_, ?_⟩
  · rw [hp]
    exact hb.1
  · rw [hp]
    exact hb.2
  · rw [← probVariants_predict_eq, hp]
    exact hb.1
  · rw [← probVariants_predict_eq, hp]
    exact hb.2
  · rw [predict_confidence]
    exact le_min (le_max_right _ _) (by norm_num)
  · rw [predict_confidence]
    exact min_le_right _ _

/-- C10: a blank or non-parsing entry contributes `0` to the sum via
`parseFloat(v) || 0`; per-field validation accepts the empty string, so
the all-empty form passes validation, has average `0`, and a submission
on it computes the prediction at average `0` rather than an error. -/
theorem c10_empty_contributes_zero :
    (∀ v : ParamString, v.isBlank = true ∨ v.parsed = none →
      parseOrZero v = 0) ∧
    hasErrors emptyParameters = false ∧
    avgValue emptyParameters = 0 ∧
    (Classification.handleSubmit ⟨emptyParameters, fun _ => none, none⟩).result =
      some (Classification.predict 0) := by
  have havg : avgValue emptyParameters = 0 := by
    simp [avgValue, sumValues, values, keyList, parseOrZero,
          SolarParameters.get, emptyParameters, blankString]
  have hval : hasErrors emptyParameters = false := by decide
  refine ⟨?_, hval, havg, ?_⟩
  · intro v hv
    rcases hv with hb | hp
    · simp [parseOrZero, v.blank_nan hb]
    · simp [parseOrZero, hp]
  · simp [Classification.handleSubmit, hval, havg]

/-- Witness for C10 at the blank string and the all-empty form. -/
theorem c10_witness :
    parseOrZero blankString = 0 ∧ avgValue emptyParameters = 0 :=
  ⟨c10_empty_contributes_zero.1 blankString (Or.inl rfl),
   c10_empty_contributes_zero.2.2.1⟩

end SolarFlare
